import Mathlib

/-!
Verification of the a2ui-core message-validation engine.

The TypeScript sources are shallowly embedded: JSON-shaped runtime values
become the inductive `JsVal` (with an explicit `undef` so that absent object
fields, which read as `undefined` in JavaScript, are distinguishable from
`null`), and code that can raise a `TypeError` (the `in` operator or member
access on `null`/`undefined`) returns `Except JsError _`.

Two revisions of the validator module are present in the repository and both
are embedded:
* namespace `MessageValidator` — `src/validators/message-validator.ts`
  (the v0.9-only validator: surface/op checks, no per-kind property checks);
* namespace `PropValidator` — the revision of the same module shipped in the
  repository that performs per-kind required-property validation
  (`validateComponentProperties`) and the `theme.primaryColor` check.

The utility predicates (`isPathBinding`, `getLiteralValue`, `getPathValue`)
come from `src/utils/index.ts`.
-/

/-- Runtime JSON-shaped JavaScript value. `undef` models `undefined`. -/
inductive JsVal where
  | undef
  | null
  | bool (b : Bool)
  | num (n : Int)
  | str (s : String)
  | arr (elems : List JsVal)
  | obj (fields : List (String × JsVal))

/-- The only failure mode the validator code can hit: a thrown `TypeError`
(from the `in` operator on a primitive, or member access on nullish). -/
inductive JsError where
  | typeError
deriving DecidableEq

/-- JavaScript truthiness. `undefined`, `null`, `false`, `0` and `""` are
falsy; every object and array is truthy. -/
def truthy : JsVal → Bool
  | .undef => false
  | .null => false
  | .bool b => b
  | .num n => n != 0
  | .str s => s != ""
  | .arr _ => true
  | .obj _ => true

/-- Is the value exactly `undefined` (the JS `=== undefined` test)? -/
def isUndef : JsVal → Bool
  | .undef => true
  | _ => false

/-- Is the value `null` or `undefined`? -/
def isNullish : JsVal → Bool
  | .null => true
  | .undef => true
  | _ => false

/-- JS strict equality of a runtime value against a string literal
(as used by `switch` cases and `Array.prototype.includes` on string
constants): true iff the value is that very string. -/
def strictEqStr (v : JsVal) (s : String) : Bool :=
  match v with
  | .str t => t == s
  | _ => false

/-- `Array.prototype.includes` of a list of string constants applied to a
runtime value (strict equality per element). -/
def jsIncludesStr (ss : List String) (v : JsVal) : Bool :=
  ss.any (fun s => strictEqStr v s)

/-- Membership in a JS `Set` via SameValueZero. On primitive values
SameValueZero coincides with structural equality; two distinct object or
array literals (the only way objects enter JSON-parsed input) are distinct
references and never SameValueZero-equal, so object-shaped values compare
unequal here. -/
def sameValueZero : JsVal → JsVal → Bool
  | .undef, .undef => true
  | .null, .null => true
  | .bool a, .bool b => a == b
  | .num a, .num b => a == b
  | .str a, .str b => a == b
  | _, _ => false

/-- `Set.prototype.has` over the seen-id set (SameValueZero membership). -/
def jsSetHas (seen : List JsVal) (v : JsVal) : Bool :=
  seen.any (fun u => sameValueZero u v)

/-- The canonical decimal array-index keys of JS arrays (digit strings
without a superfluous leading zero). -/
def parseIndex (s : String) : Option Nat :=
  let cs := s.data
  if cs.isEmpty then none
  else if cs.all (fun c => c.isDigit) then
    if cs.head? == some '0' && cs.length > 1 then none
    else some (cs.foldl (fun acc c => acc * 10 + (c.toNat - 48)) 0)
  else none

/-- Property read `v[k]` on a value already known not to be nullish (every
such access in the sources is guarded). Objects use first-key association
lookup (JSON objects have unique keys); arrays expose `length` and their
canonical index keys; boxed primitives expose none of the names the
validator reads, hence `undefined`. For nullish bases this helper is never
consulted by the embedding (`jsGet` throws there first); it returns
`undefined` to stay total. -/
def getProp (v : JsVal) (k : String) : JsVal :=
  match v with
  | .obj fields => (fields.lookup k).getD .undef
  | .arr elems =>
      if k == "length" then .num elems.length
      else
        match parseIndex k with
        | some i => if i < elems.length then elems.getD i .undef else .undef
        | none => .undef
  | _ => JsVal.undef

/-- Member access `v.k`: throws `TypeError` on `null`/`undefined`. -/
def jsGet (v : JsVal) (k : String) : Except JsError JsVal :=
  match v with
  | .null => .error .typeError
  | .undef => .error .typeError
  | _ => .ok (getProp v k)

/-- Key-presence test on a value already known to be an object or array
(total fragment of the `in` operator used under a typeof/non-null guard). -/
def hasKeyB (v : JsVal) (k : String) : Bool :=
  match v with
  | .obj fields => fields.any (fun f => f.1 == k)
  | .arr elems =>
      k == "length" ||
        (match parseIndex k with
         | some i => i < elems.length
         | none => false)
  | _ => false

/-- The JS `in` operator `k in v`: throws `TypeError` when the right operand
is a primitive (including strings), else tests key presence. -/
def jsIn (k : String) (v : JsVal) : Except JsError Bool :=
  match v with
  | .obj _ => .ok (hasKeyB v k)
  | .arr _ => .ok (hasKeyB v k)
  | _ => .error .typeError

/-- The JS `typeof` operator (on JSON-shaped values). -/
def jsTypeof : JsVal → String
  | .undef => "undefined"
  | .null => "object"
  | .bool _ => "boolean"
  | .num _ => "number"
  | .str _ => "string"
  | .arr _ => "object"
  | .obj _ => "object"

/-- Is the value an array (`Array.isArray`)? -/
def JsVal.isArr : JsVal → Bool
  | .arr _ => true
  | _ => false

/-- Element list of an array value (`[]` on non-arrays; only consulted
under an `Array.isArray` guard). -/
def JsVal.elemsOf : JsVal → List JsVal
  | .arr xs => xs
  | _ => []

/-- A validation error `{code, message, path?}`. -/
structure ValidationError where
  code : String
  message : String
  path : Option String := none
deriving DecidableEq

/-- A validation warning `{code, message, path?}`. -/
structure ValidationWarning where
  code : String
  message : String
  path : Option String := none
deriving DecidableEq

/-- The result record `{valid, errors, warnings}`. -/
structure ValidationResult where
  valid : Bool
  errors : List ValidationError
  warnings : List ValidationWarning
deriving DecidableEq

/-- Options `{strict?, allowedComponents?}`; `none` models an absent field. -/
structure ValidationOptions where
  strict : Bool := false
  allowedComponents : Option (List String) := none

/-- The 18 standard component kinds (`STANDARD_COMPONENT_TYPES`). -/
def STANDARD_COMPONENT_TYPES : List String :=
  ["Text", "Image", "Icon", "Video", "AudioPlayer", "Row", "Column", "List",
   "Card", "Tabs", "Divider", "Modal", "Button", "CheckBox", "TextField",
   "DateTimeInput", "ChoicePicker", "Slider"]

/-- JS string coercion `String(v)` as used by template literals, with the
recursion into array elements driven by an explicit fuel so the definition
is structurally recursive (and hence kernel-reducible). Arrays join their
elements with commas (`null`/`undefined` elements render empty), plain
objects render as `[object Object]`. -/
def jsDisplayFuel : Nat → JsVal → String
  | _, .undef => "undefined"
  | _, .null => "null"
  | _, .bool b => cond b "true" "false"
  | _, .num n => toString n
  | _, .str s => s
  | _, .obj _ => "[object Object]"
  | 0, .arr _ => ""
  | n + 1, .arr xs =>
      String.intercalate "," (xs.map (fun x =>
        if isNullish x then "" else jsDisplayFuel n x))

mutual

/-- Structural size of a JSON value, used as recursion fuel. -/
def jsSize : JsVal → Nat
  | .arr xs => jsSizeList xs + 1
  | .obj fs => jsSizeFields fs + 1
  | _ => 1

/-- Structural size of a list of JSON values. -/
def jsSizeList : List JsVal → Nat
  | [] => 0
  | v :: rest => jsSize v + jsSizeList rest + 1

/-- Structural size of an object's field list. -/
def jsSizeFields : List (String × JsVal) → Nat
  | [] => 0
  | f :: rest => jsSize f.2 + jsSizeFields rest + 1

end

/-- JS string coercion `String(v)`. The `jsSize` fuel strictly exceeds the
nesting depth of the value, so the fuel never runs out on the actual
argument. -/
def jsDisplay (v : JsVal) : String := jsDisplayFuel (jsSize v) v

namespace MessageValidator

/-- Accumulator of the single pass over the components array: the pushed
errors and warnings, the seen-id `Set`, and the root-found flag. -/
structure CompState where
  errors : List ValidationError
  warnings : List ValidationWarning
  seen : List JsVal
  hasRoot : Bool

/-- The per-index path prefix `updateComponents.components[i]`. -/
def compPath (i : Nat) : String :=
  "updateComponents.components[" ++ toString i ++ "]"

/-- Body of the `for` loop of `validateComponents` for the component at
index `i`. The in-place `push`es are modelled by appending the deltas of
this iteration to the accumulator in push order: the id check runs against
the seen-set as it stood before this component, the id is then added to
the set when truthy, and `hasRoot` is set on `id === 'root'` (the string
`'root'` is truthy, so folding the check into the disjunction is exact). -/
def compStep (options : ValidationOptions) (i : Nat) (comp : JsVal)
    (st : CompState) : CompState :=
  if !truthy comp then st
  else
    let path := compPath i
    let id := getProp comp "id"
    let idErrs :=
      if !truthy id then
        [⟨"MISSING_COMPONENT_ID", "Component id is required", some (path ++ ".id")⟩]
      else if jsSetHas st.seen id then
        [⟨"DUPLICATE_COMPONENT_ID", "Duplicate component id: " ++ jsDisplay id,
          some (path ++ ".id")⟩]
      else []
    let seen' := if !truthy id then st.seen else st.seen ++ [id]
    let hasRoot' := st.hasRoot || strictEqStr id "root"
    let kind := getProp comp "component"
    let kindErrs :=
      if !truthy kind then
        [⟨"MISSING_COMPONENT_TYPE", "Component type is required", some (path ++ ".component")⟩]
      else []
    let warns :=
      if truthy kind && (options.strict && !(jsIncludesStr STANDARD_COMPONENT_TYPES kind)) then
        match options.allowedComponents with
        | some ac =>
            if !(jsIncludesStr ac kind) then
              [⟨"UNKNOWN_COMPONENT_TYPE", "Unknown component type: " ++ jsDisplay kind,
                some (path ++ ".component")⟩]
            else []
        | none => []
      else []
    ⟨st.errors ++ idErrs ++ kindErrs, st.warnings ++ warns, seen', hasRoot'⟩

/-- The indexed loop of `validateComponents`. -/
def validateComponentsGo (options : ValidationOptions) :
    List JsVal → Nat → CompState → CompState
  | [], _, st => st
  | c :: rest, i, st => validateComponentsGo options rest (i + 1) (compStep options i c st)

/-- `validateComponents` of `src/validators/message-validator.ts`: id
uniqueness, kind presence, strict-mode unknown-kind warning, and the final
strict-mode missing-root warning. Returns the pushed errors and warnings. -/
def validateComponents (components : List JsVal) (options : ValidationOptions) :
    List ValidationError × List ValidationWarning :=
  let st := validateComponentsGo options components 0 ⟨[], [], [], false⟩
  (st.errors,
   if !st.hasRoot && options.strict then
     st.warnings ++
       [⟨"MISSING_ROOT_COMPONENT", "No component with id \"root\" found",
         some "updateComponents.components"⟩]
   else st.warnings)

/-- `validateV09Message`: dispatch on the first matching top-level key; the
`in` operator and each member access may throw on non-object operands. -/
def validateV09Message (message : JsVal) (options : ValidationOptions := {}) :
    Except JsError ValidationResult := do
  if (← jsIn "createSurface" message) then
    let createSurface ← jsGet message "createSurface"
    let sidV ← jsGet createSurface "surfaceId"
    let e1 :=
      if !truthy sidV then
        [⟨"MISSING_SURFACE_ID", "createSurface.surfaceId is required",
          some "createSurface.surfaceId"⟩]
      else []
    let cidV ← jsGet createSurface "catalogId"
    let e2 :=
      if !truthy cidV then
        [⟨"MISSING_CATALOG_ID", "createSurface.catalogId is required",
          some "createSurface.catalogId"⟩]
      else []
    let errors := e1 ++ e2
    pure ⟨errors.isEmpty, errors, []⟩
  else if (← jsIn "updateComponents" message) then
    let updateComponents ← jsGet message "updateComponents"
    let sidV ← jsGet updateComponents "surfaceId"
    let e1 :=
      if !truthy sidV then
        [⟨"MISSING_SURFACE_ID", "updateComponents.surfaceId is required",
          some "updateComponents.surfaceId"⟩]
      else []
    let compsV ← jsGet updateComponents "components"
    if !truthy compsV || !compsV.isArr then
      let errors := e1 ++
        [⟨"INVALID_COMPONENTS", "updateComponents.components must be an array",
          some "updateComponents.components"⟩]
      pure ⟨errors.isEmpty, errors, []⟩
    else
      let (e2, w2) := validateComponents compsV.elemsOf options
      let errors := e1 ++ e2
      pure ⟨errors.isEmpty, errors, w2⟩
  else if (← jsIn "updateDataModel" message) then
    let updateDataModel ← jsGet message "updateDataModel"
    let sidV ← jsGet updateDataModel "surfaceId"
    let e1 :=
      if !truthy sidV then
        [⟨"MISSING_SURFACE_ID", "updateDataModel.surfaceId is required",
          some "updateDataModel.surfaceId"⟩]
      else []
    let opV ← jsGet updateDataModel "op"
    let e2 :=
      if truthy opV && !(jsIncludesStr ["add", "replace", "remove"] opV) then
        [⟨"INVALID_OP", "updateDataModel.op must be one of: add, replace, remove",
          some "updateDataModel.op"⟩]
      else []
    let valueV ← jsGet updateDataModel "value"
    let warns :=
      if strictEqStr opV "remove" && !(isUndef valueV) then
        [⟨"UNNECESSARY_VALUE", "updateDataModel.value should not be provided for remove operation",
          some "updateDataModel.value"⟩]
      else []
    let e3 :=
      if !(strictEqStr opV "remove") && isUndef valueV then
        if strictEqStr opV "add" then
          [⟨"MISSING_VALUE", "updateDataModel.value is required for add operation",
            some "updateDataModel.value"⟩]
        else []
      else []
    let errors := e1 ++ e2 ++ e3
    pure ⟨errors.isEmpty, errors, warns⟩
  else if (← jsIn "deleteSurface" message) then
    let deleteSurface ← jsGet message "deleteSurface"
    let sidV ← jsGet deleteSurface "surfaceId"
    let errors :=
      if !truthy sidV then
        [⟨"MISSING_SURFACE_ID", "deleteSurface.surfaceId is required",
          some "deleteSurface.surfaceId"⟩]
      else []
    pure ⟨errors.isEmpty, errors, []⟩
  else
    let errors :=
      [⟨"INVALID_MESSAGE_TYPE",
        "Message must contain one of: createSurface, updateComponents, updateDataModel, deleteSurface",
        none⟩]
    pure ⟨errors.isEmpty, errors, []⟩

/-- `validateMessage` (v0.9): delegates to `validateV09Message`. -/
def validateMessage (message : JsVal) (options : ValidationOptions := {}) :
    Except JsError ValidationResult :=
  validateV09Message message options

/-- Batch rewrite of one error's path: spread plus
`path: messages[i]. + (error.path ?? '')`. -/
def reErr (i : Nat) (e : ValidationError) : ValidationError :=
  { e with path := some ("messages[" ++ toString i ++ "]." ++ e.path.getD "") }

/-- Batch rewrite of one warning's path. -/
def reWarn (i : Nat) (w : ValidationWarning) : ValidationWarning :=
  { w with path := some ("messages[" ++ toString i ++ "]." ++ w.path.getD "") }

/-- The indexed loop of `validateMessages`: falsy entries are skipped
(`if (!message) continue`), others are validated and their errors and
warnings re-pathed and appended. -/
def validateMessagesGo (options : ValidationOptions) :
    List JsVal → Nat → List ValidationError → List ValidationWarning →
      Except JsError (List ValidationError × List ValidationWarning)
  | [], _, es, ws => .ok (es, ws)
  | m :: rest, i, es, ws =>
    if !truthy m then validateMessagesGo options rest (i + 1) es ws
    else do
      let r ← validateMessage m options
      validateMessagesGo options rest (i + 1)
        (es ++ r.errors.map (reErr i)) (ws ++ r.warnings.map (reWarn i))

/-- `validateMessages`: aggregate per-message results with positional
`messages[i].` path prefixes; `valid` is `errors.length === 0`. -/
def validateMessages (messages : List JsVal) (options : ValidationOptions := {}) :
    Except JsError ValidationResult := do
  let (es, ws) ← validateMessagesGo options messages 0 [] []
  pure ⟨es.isEmpty, es, ws⟩

end MessageValidator

namespace PropValidator

/-- One hex digit as accepted by the character class `[0-9a-fA-F]`. -/
def isHexDigitChar (c : Char) : Bool :=
  c.isDigit || ('a' ≤ c && c ≤ 'f') || ('A' ≤ c && c ≤ 'F')

/-- The regular expression `^#[0-9a-fA-F]{6}$` on a string. -/
def isHexColorString (s : String) : Bool :=
  s.length == 7 && s.front == '#' && (s.drop 1).all isHexDigitChar

/-- `colorPattern.test(x)`: `RegExp.test` coerces its argument to a string
before matching. -/
def hexColorTest (v : JsVal) : Bool :=
  isHexColorString (jsDisplay v)

/-- The `switch (comp.component)` body of `validateComponentProperties`,
entered when the kind is the string `k` (a `switch` case only matches by
strict equality, so non-string kinds fall through to no checks). -/
def validateComponentPropertiesStr (k : String) (comp : JsVal) (path : String) :
    List ValidationError :=
  if k == "Text" then
    if isUndef (getProp comp "text") then
      [⟨"MISSING_REQUIRED_PROPERTY", "Text component requires \"text\" property",
        some (path ++ ".text")⟩]
    else []
  else if k == "Image" || k == "Video" || k == "AudioPlayer" then
    if isUndef (getProp comp "url") then
      [⟨"MISSING_REQUIRED_PROPERTY", k ++ " component requires \"url\" property",
        some (path ++ ".url")⟩]
    else []
  else if k == "Icon" then
    if isUndef (getProp comp "name") then
      [⟨"MISSING_REQUIRED_PROPERTY", "Icon component requires \"name\" property",
        some (path ++ ".name")⟩]
    else []
  else if k == "Row" || k == "Column" || k == "List" then
    if isUndef (getProp comp "children") then
      [⟨"MISSING_REQUIRED_PROPERTY", k ++ " component requires \"children\" property",
        some (path ++ ".children")⟩]
    else []
  else if k == "Card" then
    if isUndef (getProp comp "child") then
      [⟨"MISSING_REQUIRED_PROPERTY", "Card component requires \"child\" property",
        some (path ++ ".child")⟩]
    else []
  else if k == "Tabs" then
    if isUndef (getProp comp "tabs") then
      [⟨"MISSING_REQUIRED_PROPERTY", "Tabs component requires \"tabs\" property",
        some (path ++ ".tabs")⟩]
    else []
  else if k == "Modal" then
    (if isUndef (getProp comp "trigger") then
      [⟨"MISSING_REQUIRED_PROPERTY", "Modal component requires \"trigger\" property",
        some (path ++ ".trigger")⟩]
    else []) ++
    (if isUndef (getProp comp "content") then
      [⟨"MISSING_REQUIRED_PROPERTY", "Modal component requires \"content\" property",
        some (path ++ ".content")⟩]
    else [])
  else if k == "Button" then
    (if isUndef (getProp comp "child") then
      [⟨"MISSING_REQUIRED_PROPERTY", "Button component requires \"child\" property",
        some (path ++ ".child")⟩]
    else []) ++
    (if isUndef (getProp comp "action") then
      [⟨"MISSING_REQUIRED_PROPERTY", "Button component requires \"action\" property",
        some (path ++ ".action")⟩]
    else [])
  else if k == "CheckBox" then
    (if isUndef (getProp comp "label") then
      [⟨"MISSING_REQUIRED_PROPERTY", "CheckBox component requires \"label\" property",
        some (path ++ ".label")⟩]
    else []) ++
    (if isUndef (getProp comp "value") then
      [⟨"MISSING_REQUIRED_PROPERTY", "CheckBox component requires \"value\" property",
        some (path ++ ".value")⟩]
    else [])
  else if k == "TextField" then
    if isUndef (getProp comp "label") then
      [⟨"MISSING_REQUIRED_PROPERTY", "TextField component requires \"label\" property",
        some (path ++ ".label")⟩]
    else []
  else if k == "DateTimeInput" then
    if isUndef (getProp comp "value") then
      [⟨"MISSING_REQUIRED_PROPERTY", "DateTimeInput component requires \"value\" property",
        some (path ++ ".value")⟩]
    else []
  else if k == "ChoicePicker" then
    (if isUndef (getProp comp "options") then
      [⟨"MISSING_REQUIRED_PROPERTY", "ChoicePicker component requires \"options\" property",
        some (path ++ ".options")⟩]
    else []) ++
    (if isUndef (getProp comp "value") then
      [⟨"MISSING_REQUIRED_PROPERTY", "ChoicePicker component requires \"value\" property",
        some (path ++ ".value")⟩]
    else [])
  else if k == "Slider" then
    (if isUndef (getProp comp "value") then
      [⟨"MISSING_REQUIRED_PROPERTY", "Slider component requires \"value\" property",
        some (path ++ ".value")⟩]
    else []) ++
    (if isUndef (getProp comp "min") then
      [⟨"MISSING_REQUIRED_PROPERTY", "Slider component requires \"min\" property",
        some (path ++ ".min")⟩]
    else []) ++
    (if isUndef (getProp comp "max") then
      [⟨"MISSING_REQUIRED_PROPERTY", "Slider component requires \"max\" property",
        some (path ++ ".max")⟩]
    else [])
  else []

/-- `validateComponentProperties(comp, path, errors)`: the pushed
`MISSING_REQUIRED_PROPERTY` errors for the component's kind. -/
def validateComponentProperties (comp : JsVal) (path : String) :
    List ValidationError :=
  match getProp comp "component" with
  | .str k => validateComponentPropertiesStr k comp path
  | _ => []

/-- Loop body of this revision's `validateComponents`: same id checks as
`MessageValidator.compStep`; the unknown-kind warning uses optional
chaining (`!options.allowedComponents?.includes(...)`), so it also fires
when no allow-list was supplied; and every component with a truthy kind is
handed to `validateComponentProperties`. Deltas are appended in push
order. -/
def compStep (options : ValidationOptions) (i : Nat) (comp : JsVal)
    (st : MessageValidator.CompState) : MessageValidator.CompState :=
  if !truthy comp then st
  else
    let path := MessageValidator.compPath i
    let id := getProp comp "id"
    let idErrs :=
      if !truthy id then
        [⟨"MISSING_COMPONENT_ID", "Component id is required", some (path ++ ".id")⟩]
      else if jsSetHas st.seen id then
        [⟨"DUPLICATE_COMPONENT_ID", "Duplicate component id: " ++ jsDisplay id,
          some (path ++ ".id")⟩]
      else []
    let seen' := if !truthy id then st.seen else st.seen ++ [id]
    let hasRoot' := st.hasRoot || strictEqStr id "root"
    let kind := getProp comp "component"
    let kindErrs :=
      if !truthy kind then
        [⟨"MISSING_COMPONENT_TYPE", "Component type is required", some (path ++ ".component")⟩]
      else []
    let propErrs :=
      if !truthy kind then [] else validateComponentProperties comp path
    let warns :=
      if truthy kind && (options.strict && !(jsIncludesStr STANDARD_COMPONENT_TYPES kind)) then
        if !((options.allowedComponents.getD []).any (fun s => strictEqStr kind s)) then
          [⟨"UNKNOWN_COMPONENT_TYPE", "Unknown component type: " ++ jsDisplay kind,
            some (path ++ ".component")⟩]
        else []
      else []
    ⟨st.errors ++ idErrs ++ kindErrs ++ propErrs, st.warnings ++ warns, seen', hasRoot'⟩

/-- The indexed loop of this revision's `validateComponents`. -/
def validateComponentsGo (options : ValidationOptions) :
    List JsVal → Nat → MessageValidator.CompState → MessageValidator.CompState
  | [], _, st => st
  | c :: rest, i, st => validateComponentsGo options rest (i + 1) (compStep options i c st)

/-- This revision's `validateComponents`: id and kind checks, optional-chain
unknown-kind warning, required-property checks, final missing-root
warning. -/
def validateComponents (components : List JsVal) (options : ValidationOptions) :
    List ValidationError × List ValidationWarning :=
  let st := validateComponentsGo options components 0 ⟨[], [], [], false⟩
  (st.errors,
   if !st.hasRoot && options.strict then
     st.warnings ++
       [⟨"MISSING_ROOT_COMPONENT", "No component with id \"root\" found",
         some "updateComponents.components"⟩]
   else st.warnings)

/-- This revision's `validateMessage`: like
`MessageValidator.validateV09Message` plus the `theme.primaryColor` format
warning, and without the `updateDataModel` op/value checks. -/
def validateMessage (message : JsVal) (options : ValidationOptions := {}) :
    Except JsError ValidationResult := do
  if (← jsIn "createSurface" message) then
    let createSurface ← jsGet message "createSurface"
    let sidV ← jsGet createSurface "surfaceId"
    let e1 :=
      if !truthy sidV then
        [⟨"MISSING_SURFACE_ID", "createSurface.surfaceId is required",
          some "createSurface.surfaceId"⟩]
      else []
    let cidV ← jsGet createSurface "catalogId"
    let e2 :=
      if !truthy cidV then
        [⟨"MISSING_CATALOG_ID", "createSurface.catalogId is required",
          some "createSurface.catalogId"⟩]
      else []
    let themeV ← jsGet createSurface "theme"
    let primaryColor := if isNullish themeV then .undef else getProp themeV "primaryColor"
    let warns :=
      if truthy primaryColor && !(hexColorTest primaryColor) then
        [⟨"INVALID_PRIMARY_COLOR", "primaryColor should be a hex color code (e.g., #00BFFF)",
          some "createSurface.theme.primaryColor"⟩]
      else []
    let errors := e1 ++ e2
    pure ⟨errors.isEmpty, errors, warns⟩
  else if (← jsIn "updateComponents" message) then
    let updateComponents ← jsGet message "updateComponents"
    let sidV ← jsGet updateComponents "surfaceId"
    let e1 :=
      if !truthy sidV then
        [⟨"MISSING_SURFACE_ID", "updateComponents.surfaceId is required",
          some "updateComponents.surfaceId"⟩]
      else []
    let compsV ← jsGet updateComponents "components"
    if !truthy compsV || !compsV.isArr then
      let errors := e1 ++
        [⟨"INVALID_COMPONENTS", "updateComponents.components must be an array",
          some "updateComponents.components"⟩]
      pure ⟨errors.isEmpty, errors, []⟩
    else
      let (e2, w2) := validateComponents compsV.elemsOf options
      let errors := e1 ++ e2
      pure ⟨errors.isEmpty, errors, w2⟩
  else if (← jsIn "updateDataModel" message) then
    let updateDataModel ← jsGet message "updateDataModel"
    let sidV ← jsGet updateDataModel "surfaceId"
    let errors :=
      if !truthy sidV then
        [⟨"MISSING_SURFACE_ID", "updateDataModel.surfaceId is required",
          some "updateDataModel.surfaceId"⟩]
      else []
    pure ⟨errors.isEmpty, errors, []⟩
  else if (← jsIn "deleteSurface" message) then
    let deleteSurface ← jsGet message "deleteSurface"
    let sidV ← jsGet deleteSurface "surfaceId"
    let errors :=
      if !truthy sidV then
        [⟨"MISSING_SURFACE_ID", "deleteSurface.surfaceId is required",
          some "deleteSurface.surfaceId"⟩]
      else []
    pure ⟨errors.isEmpty, errors, []⟩
  else
    let errors :=
      [⟨"INVALID_MESSAGE_TYPE",
        "Message must contain one of: createSurface, updateComponents, updateDataModel, deleteSurface",
        none⟩]
    pure ⟨errors.isEmpty, errors, []⟩

end PropValidator

/-- The JS test `value !== null` (strict comparison against the `null`
literal). -/
def isNullVal : JsVal → Bool
  | .null => true
  | _ => false

/-- `isPathBinding` of `src/utils/index.ts`:
`typeof value === 'object' && value !== null && 'path' in value`.
(The `in` operand is only reached when the value is a non-null object or
array, where `in` cannot throw, so the short-circuit keeps this total.) -/
def isPathBinding (value : JsVal) : Bool :=
  jsTypeof value == "object" && !(isNullVal value) && hasKeyB value "path"

/-- `getLiteralValue`: `undefined` on a binding, the value itself
otherwise. -/
def getLiteralValue (value : JsVal) : JsVal :=
  if isPathBinding value then .undef else value

/-- `getPathValue`: `value.path` on a binding, `undefined` otherwise. -/
def getPathValue (value : JsVal) : JsVal :=
  if isPathBinding value then getProp value "path" else JsVal.undef

/-- Unwrap a known-successful validation (used to phrase batch results in
terms of the independent per-message results). -/
def okResult : Except JsError ValidationResult → ValidationResult
  | .ok r => r
  | .error _ => ⟨true, [], []⟩

/-- Did the computation return normally (no thrown `TypeError`)? -/
def exceptIsOk : Except JsError ValidationResult → Bool
  | .ok _ => true
  | .error _ => false

lemma exceptIsOk_iff (x : Except JsError ValidationResult) :
    exceptIsOk x = true ↔ ∃ r, x = .ok r := by
  cases x <;> simp [exceptIsOk]

lemma ok_bind {α β : Type} (a : α) (f : α → Except JsError β) :
    (Except.ok a >>= f) = f a := rfl

lemma error_bind {α β : Type} (e : JsError) (f : α → Except JsError β) :
    (Except.error e >>= f : Except JsError β) = .error e := rfl

lemma pure_eq_ok {α : Type} (a : α) : (pure a : Except JsError α) = .ok a := rfl

namespace MessageValidator

/-- Every result built by `validateV09Message` computes `valid` as
`errors.length === 0`. -/
lemma validateV09Message_valid (msg : JsVal) (options : ValidationOptions)
    (r : ValidationResult) (h : validateV09Message msg options = .ok r) :
    r.valid = r.errors.isEmpty := by
  unfold validateV09Message at h
  cases h1 : jsIn "createSurface" msg <;> rw [h1] at h <;>
    simp only [ok_bind, error_bind] at h
  · cases h
  rename_i b1; cases b1 <;> simp only [Bool.false_eq_true, if_false, if_true] at h
  · cases h2 : jsIn "updateComponents" msg <;> rw [h2] at h <;>
      simp only [ok_bind, error_bind] at h
    · cases h
    rename_i b2; cases b2 <;> simp only [Bool.false_eq_true, if_false, if_true] at h
    · cases h3 : jsIn "updateDataModel" msg <;> rw [h3] at h <;>
        simp only [ok_bind, error_bind] at h
      · cases h
      rename_i b3; cases b3 <;> simp only [Bool.false_eq_true, if_false, if_true] at h
      · cases h4 : jsIn "deleteSurface" msg <;> rw [h4] at h <;>
          simp only [ok_bind, error_bind] at h
        · cases h
        rename_i b4; cases b4 <;> simp only [Bool.false_eq_true, if_false, if_true] at h
        · cases h; rfl
        · cases h5 : jsGet msg "deleteSurface" <;> rw [h5] at h <;>
            simp only [ok_bind, error_bind] at h
          · cases h
          rename_i v; cases h6 : jsGet v "surfaceId" <;> rw [h6] at h <;>
            simp only [ok_bind, error_bind] at h
          · cases h
          cases h; rfl
      · cases h5 : jsGet msg "updateDataModel" <;> rw [h5] at h <;>
          simp only [ok_bind, error_bind] at h
        · cases h
        rename_i v; cases h6 : jsGet v "surfaceId" <;> rw [h6] at h <;>
          simp only [ok_bind, error_bind] at h
        · cases h
        cases h7 : jsGet v "op" <;> rw [h7] at h <;>
          simp only [ok_bind, error_bind] at h
        · cases h
        cases h8 : jsGet v "value" <;> rw [h8] at h <;>
          simp only [ok_bind, error_bind] at h
        · cases h
        cases h; rfl
    · cases h5 : jsGet msg "updateComponents" <;> rw [h5] at h <;>
        simp only [ok_bind, error_bind] at h
      · cases h
      rename_i v; cases h6 : jsGet v "surfaceId" <;> rw [h6] at h <;>
        simp only [ok_bind, error_bind] at h
      · cases h
      cases h7 : jsGet v "components" <;> rw [h7] at h <;>
        simp only [ok_bind, error_bind] at h
      · cases h
      rename_i cv
      by_cases h8 : (!truthy cv || !cv.isArr) = true
      · rw [if_pos h8] at h; cases h; rfl
      · rw [if_neg h8] at h; cases h; rfl
  · cases h5 : jsGet msg "createSurface" <;> rw [h5] at h <;>
      simp only [ok_bind, error_bind] at h
    · cases h
    rename_i v; cases h6 : jsGet v "surfaceId" <;> rw [h6] at h <;>
      simp only [ok_bind, error_bind] at h
    · cases h
    cases h7 : jsGet v "catalogId" <;> rw [h7] at h <;>
      simp only [ok_bind, error_bind] at h
    · cases h
    cases h; rfl

end MessageValidator

namespace MessageValidator

/-- Errors contributed to the batch by the entry at index `p.1`: none when
the entry is falsy (skipped), otherwise its own errors re-pathed. -/
def msgErrContrib (options : ValidationOptions) (p : Nat × JsVal) :
    List ValidationError :=
  if truthy p.2 then (okResult (validateMessage p.2 options)).errors.map (reErr p.1)
  else []

/-- Warnings contributed to the batch by the entry at index `p.1`. -/
def msgWarnContrib (options : ValidationOptions) (p : Nat × JsVal) :
    List ValidationWarning :=
  if truthy p.2 then (okResult (validateMessage p.2 options)).warnings.map (reWarn p.1)
  else []

/-- The batch loop aggregates exactly the per-entry contributions, in input
order, provided no processed entry throws. -/
lemma validateMessagesGo_eq (options : ValidationOptions) (msgs : List JsVal)
    (i : Nat) (es : List ValidationError) (ws : List ValidationWarning)
    (h : ∀ m ∈ msgs, truthy m = false ∨ exceptIsOk (validateMessage m options) = true) :
    validateMessagesGo options msgs i es ws =
      .ok (es ++ ((msgs.enumFrom i).map (msgErrContrib options)).flatten,
           ws ++ ((msgs.enumFrom i).map (msgWarnContrib options)).flatten) := by
  induction msgs generalizing i es ws with
  | nil => simp [validateMessagesGo, List.enumFrom]
  | cons m rest ih =>
    have hrest : ∀ x ∈ rest, truthy x = false ∨
        exceptIsOk (validateMessage x options) = true :=
      fun x hx => h x (List.mem_cons_of_mem _ hx)
    rw [List.enumFrom_cons]
    by_cases htr : truthy m
    · rcases h m (List.mem_cons_self m rest) with hm | hm
      · rw [htr] at hm; cases hm
      · rcases (exceptIsOk_iff _).mp hm with ⟨r, hr⟩
        simp only [validateMessagesGo, htr, Bool.not_true, Bool.false_eq_true, if_false, hr,
          ok_bind, List.map_cons, List.flatten_cons]
        rw [ih _ _ _ hrest]
        simp [msgErrContrib, msgWarnContrib, htr, hr, okResult, List.append_assoc]
    · simp only [validateMessagesGo, htr, Bool.not_false, if_true]
      rw [ih _ _ _ hrest]
      simp [msgErrContrib, msgWarnContrib, htr]

end MessageValidator

lemma mem_enumFrom_snd {α : Type} {p : Nat × α} :
    ∀ (l : List α) (n : Nat), p ∈ l.enumFrom n → p.2 ∈ l := by
  intro l
  induction l with
  | nil => intro n h; simp [List.enumFrom] at h
  | cons a rest ih =>
    intro n h
    rw [List.enumFrom_cons] at h
    rcases List.mem_cons.mp h with h | h
    · subst h; exact List.mem_cons_self _ _
    · exact List.mem_cons_of_mem _ (ih _ h)

lemma flatten_isEmpty {α : Type} (l : List (List α)) :
    l.flatten.isEmpty = l.all (fun x => x.isEmpty) := by
  induction l with
  | nil => rfl
  | cons x rest ih =>
    cases x <;> simp_all [List.flatten_cons]

namespace MessageValidator


end MessageValidator

lemma all_enumFrom_snd {α : Type} (l : List α) (n : Nat) (g : α → Bool) :
    ((l.enumFrom n).all fun p => g p.2) = l.all g := by
  induction l generalizing n with
  | nil => rfl
  | cons a rest ih => rw [List.enumFrom_cons]; simp [ih]

lemma all_map_general {α β : Type} (l : List α) (f : α → β) (p : β → Bool) :
    (l.map f).all p = l.all (fun a => p (f a)) := by
  induction l <;> simp_all

lemma isEmpty_map {α β : Type} (l : List α) (f : α → β) :
    (l.map f).isEmpty = l.isEmpty := by
  cases l <;> rfl

lemma all_congr_mem {α : Type} {l : List α} {f g : α → Bool}
    (h : ∀ a ∈ l, f a = g a) : l.all f = l.all g := by
  induction l with
  | nil => rfl
  | cons a rest ih =>
    simp only [List.all_cons, h a (List.mem_cons_self a rest)]
    rw [ih (fun x hx => h x (List.mem_cons_of_mem _ hx))]

namespace MessageValidator

/-- Claim C3: for every batch of (truthy, non-throwing) messages and any
options, `validateMessages` equals validating each message independently
with the same options, re-pathing each error and warning with the
`messages[i].` prefix of its own input index, aggregated in ascending
input-index order; and the overall `valid` flag is true iff every
individual result was valid. -/
theorem claim_C3_batch_composition (msgs : List JsVal) (options : ValidationOptions)
    (h : ∀ m ∈ msgs, truthy m = true ∧ exceptIsOk (validateMessage m options) = true) :
    validateMessages msgs options =
      .ok ⟨msgs.all (fun m => (okResult (validateMessage m options)).valid),
           (msgs.enum.map
             (fun p => (okResult (validateMessage p.2 options)).errors.map (reErr p.1))).flatten,
           (msgs.enum.map
             (fun p => (okResult (validateMessage p.2 options)).warnings.map (reWarn p.1))).flatten⟩ := by
  have h' : ∀ m ∈ msgs, truthy m = false ∨ exceptIsOk (validateMessage m options) = true :=
    fun m hm => Or.inr (h m hm).2
  unfold validateMessages
  rw [validateMessagesGo_eq options msgs 0 [] [] h']
  simp only [ok_bind, List.nil_append]
  have henum : msgs.enum = msgs.enumFrom 0 := rfl
  have hcontribE : (msgs.enumFrom 0).map (msgErrContrib options)
      = (msgs.enumFrom 0).map
        (fun p => (okResult (validateMessage p.2 options)).errors.map (reErr p.1)) :=
    List.map_congr_left (fun p hp => by
      simp [msgErrContrib, (h p.2 (mem_enumFrom_snd msgs 0 hp)).1])
  have hcontribW : (msgs.enumFrom 0).map (msgWarnContrib options)
      = (msgs.enumFrom 0).map
        (fun p => (okResult (validateMessage p.2 options)).warnings.map (reWarn p.1)) :=
    List.map_congr_left (fun p hp => by
      simp [msgWarnContrib, (h p.2 (mem_enumFrom_snd msgs 0 hp)).1])
  rw [hcontribE, hcontribW, henum]
  refine congrArg Except.ok ?_
  refine congrArg (fun v => ValidationResult.mk v _ _) ?_
  calc ((msgs.enumFrom 0).map
          (fun p => (okResult (validateMessage p.2 options)).errors.map (reErr p.1))).flatten.isEmpty
      = ((msgs.enumFrom 0).map
          (fun p => (okResult (validateMessage p.2 options)).errors.map (reErr p.1))).all
          (fun x => x.isEmpty) := flatten_isEmpty _
    _ = (msgs.enumFrom 0).all
          (fun p => (okResult (validateMessage p.2 options)).errors.isEmpty) := by
          rw [all_map_general]
          exact all_congr_mem (fun p _ => isEmpty_map _ _)
    _ = msgs.all (fun m => (okResult (validateMessage m options)).errors.isEmpty) :=
          all_enumFrom_snd msgs 0
            (fun m => (okResult (validateMessage m options)).errors.isEmpty)
    _ = msgs.all (fun m => (okResult (validateMessage m options)).valid) := by
          refine all_congr_mem (fun m hm => ?_)
          rcases (exceptIsOk_iff _).mp (h m hm).2 with ⟨r, hr⟩
          rw [hr, okResult, (validateV09Message_valid m options r hr)]

end MessageValidator

namespace MessageValidator

/-- A well-formed `createSurface` message, used by concrete instances. -/
def sampleCreateSurface : JsVal :=
  .obj [("createSurface", .obj [("surfaceId", .str "s1"), ("catalogId", .str "c1")])]

/-- A `deleteSurface` message whose `surfaceId` is missing. -/
def sampleBadDelete : JsVal :=
  .obj [("deleteSurface", .obj [])]

/-- Witness for C3 at a concrete two-message batch (one valid message, one
with a missing surfaceId). -/
theorem claim_C3_batch_composition_witness :
    (∀ m ∈ [sampleCreateSurface, sampleBadDelete], truthy m = true ∧
        exceptIsOk (validateMessage m {}) = true) ∧
    validateMessages [sampleCreateSurface, sampleBadDelete] {} =
      .ok ⟨([sampleCreateSurface, sampleBadDelete]).all
             (fun m => (okResult (validateMessage m {})).valid),
           (([sampleCreateSurface, sampleBadDelete]).enum.map
             (fun p => (okResult (validateMessage p.2 {})).errors.map (reErr p.1))).flatten,
           (([sampleCreateSurface, sampleBadDelete]).enum.map
             (fun p => (okResult (validateMessage p.2 {})).warnings.map (reWarn p.1))).flatten⟩ :=
  ⟨by decide, claim_C3_batch_composition [sampleCreateSurface, sampleBadDelete] {} (by decide)⟩

end MessageValidator

/-- Claim C2 (code bug): for a top-level JSON string, `validateMessage`
throws — `'createSurface' in message` raises `TypeError` on a primitive
operand — instead of returning an `INVALID_MESSAGE_TYPE` result; for an
object bearing none of the four recognized keys it does return
`INVALID_MESSAGE_TYPE` as the claim states. -/
theorem claim_C2_top_level_string_throws :
    MessageValidator.validateMessage (.str "hello") {} = .error .typeError ∧
    MessageValidator.validateMessage (.obj [("unknownType", .obj [])]) {} =
      .ok ⟨false,
        [⟨"INVALID_MESSAGE_TYPE",
          "Message must contain one of: createSurface, updateComponents, updateDataModel, deleteSurface",
          none⟩], []⟩ :=
  ⟨rfl, rfl⟩

/-- Strict-mode message with a single unknown ("CustomWidget") component
and no `allowedComponents` supplied. -/
def strictUnknownKindMsg : JsVal :=
  .obj [("updateComponents", .obj [("surfaceId", .str "s"),
    ("components", .arr [.obj [("id", .str "c"), ("component", .str "CustomWidget")]])])]

/-- Claim C4 (code bug): under `{strict: true}` with no `allowedComponents`,
the validator of `src/validators/message-validator.ts` emits NO
`UNKNOWN_COMPONENT_TYPE` warning for an unknown kind (its
`options.allowedComponents && ...` guard skips the check when the
allow-list is absent), while the repository's sibling revision of the same
module (whose optional-chaining guard matches the spec and the test suite)
does emit it; neither revision makes an unknown kind an error. -/
theorem claim_C4_strict_unknown_kind_divergence :
    MessageValidator.validateV09Message strictUnknownKindMsg ⟨true, none⟩ =
      .ok ⟨true, [],
        [⟨"MISSING_ROOT_COMPONENT", "No component with id \"root\" found",
          some "updateComponents.components"⟩]⟩ ∧
    PropValidator.validateMessage strictUnknownKindMsg ⟨true, none⟩ =
      .ok ⟨true, [],
        [⟨"UNKNOWN_COMPONENT_TYPE", "Unknown component type: CustomWidget",
          some "updateComponents.components[0].component"⟩,
         ⟨"MISSING_ROOT_COMPONENT", "No component with id \"root\" found",
          some "updateComponents.components"⟩]⟩ :=
  ⟨rfl, rfl⟩

/-- Counterexample to claim C5 as stated: `getLiteralValue(null)` returns
`null` itself (the `isPathBinding(null)` guard is false, so the value is
returned unchanged), not `undefined`. -/
theorem claim_C5_null_literal_counterexample :
    getLiteralValue JsVal.null = JsVal.null ∧ JsVal.null ≠ JsVal.undef :=
  ⟨rfl, fun h => JsVal.noConfusion h⟩

/-- The non-binding shapes named by claim C5: string, number, boolean,
array, or null. -/
def NonBindingShape (v : JsVal) : Prop :=
  (∃ s, v = .str s) ∨ (∃ n, v = .num n) ∨ (∃ b, v = .bool b) ∨
  (∃ xs, v = .arr xs) ∨ v = .null

lemma lookup_some_any {β : Type} (k : String) :
    ∀ (fields : List (String × β)) (v : β), fields.lookup k = some v →
      (fields.any fun f => f.1 == k) = true := by
  intro fields
  induction fields with
  | nil => intro v h; simp [List.lookup] at h
  | cons a rest ih =>
    intro v h
    rw [List.lookup] at h
    by_cases ha : k = a.1
    · subst ha
      simp [List.any_cons]
    · have hbeq : (k == a.1) = false := beq_false_of_ne ha
      rw [hbeq] at h
      simp only [List.any_cons]
      rw [ih v h]
      simp

lemma hasKeyB_arr_path (xs : List JsVal) : hasKeyB (.arr xs) "path" = false := by
  have h1 : ("path" == "length") = false := by decide
  have h2 : parseIndex "path" = none := by decide
  simp only [hasKeyB, h1, h2, Bool.false_or]

/-- Claim C5 as amended: for every non-binding value (string, number,
boolean, array, or null) `isPathBinding` is false, `getLiteralValue`
returns the value itself — including `null`, which returns `null` rather
than `undefined` — and `getPathValue` returns `undefined`; for every
object whose `path` key holds a string `s`, `isPathBinding` is true,
`getLiteralValue` is `undefined` and `getPathValue` is `s`. -/
theorem claim_C5_binding_duality :
    (∀ v : JsVal, NonBindingShape v →
       isPathBinding v = false ∧ getLiteralValue v = v ∧ getPathValue v = .undef) ∧
    (∀ (fields : List (String × JsVal)) (s : String),
       fields.lookup "path" = some (.str s) →
       isPathBinding (.obj fields) = true ∧ getLiteralValue (.obj fields) = .undef ∧
       getPathValue (.obj fields) = .str s) := by
  constructor
  · rintro v (⟨s, rfl⟩ | ⟨n, rfl⟩ | ⟨b, rfl⟩ | ⟨xs, rfl⟩ | rfl) <;>
      simp [isPathBinding, getLiteralValue, getPathValue, jsTypeof, isNullVal,
        hasKeyB_arr_path]
  · intro fields s h
    have hk0 : (fields.any fun f => f.1 == "path") = true :=
      lookup_some_any "path" fields _ h
    have hk : isPathBinding (.obj fields) = true := by
      simp [isPathBinding, jsTypeof, isNullVal, hasKeyB, hk0]
    refine ⟨hk, ?_, ?_⟩
    · simp [getLiteralValue, hk]
    · simp [getPathValue, hk, getProp, h]

/-- Witness for the amended C5 at `null` and at the binding
`{path: "/x"}`. -/
theorem claim_C5_binding_duality_witness :
    (isPathBinding JsVal.null = false ∧ getLiteralValue JsVal.null = JsVal.null ∧
       getPathValue JsVal.null = JsVal.undef) ∧
    (isPathBinding (.obj [("path", .str "/x")]) = true ∧
       getLiteralValue (.obj [("path", .str "/x")]) = .undef ∧
       getPathValue (.obj [("path", .str "/x")]) = .str "/x") :=
  ⟨claim_C5_binding_duality.1 JsVal.null (Or.inr (Or.inr (Or.inr (Or.inr rfl)))),
   claim_C5_binding_duality.2 [("path", JsVal.str "/x")] "/x" rfl⟩

/-- `updateDataModel` message whose `op` key is present but holds the empty
string: not one of add/replace/remove, yet falsy. -/
def emptyOpMsg : JsVal :=
  .obj [("updateDataModel", .obj [("surfaceId", .str "s"), ("op", .str "")])]

/-- Counterexample to claim C6 as stated: with `op` present but equal to
`""` (hence not one of add, replace, remove), the truthiness guard
`updateDataModel.op && ...` skips the check and no `INVALID_OP` error is
produced — the result is fully valid. -/
theorem claim_C6_empty_op_counterexample :
    MessageValidator.validateV09Message emptyOpMsg {} = .ok ⟨true, [], []⟩ :=
  rfl

/-- Claim C6 as amended: for an `updateDataModel` message with truthy
`surfaceId`, (a) a present-and-truthy `op` outside add/replace/remove
yields `INVALID_OP`; (b) `op === 'add'` with `value === undefined` yields
`MISSING_VALUE`; (c) `op === 'remove'` with a defined `value` leaves the
result valid with no errors but a `UNNECESSARY_VALUE` warning. -/
theorem claim_C6_update_data_model (f : List (String × JsVal))
    (h : truthy (getProp (.obj f) "surfaceId") = true) :
    ∃ r, MessageValidator.validateV09Message (.obj [("updateDataModel", .obj f)]) {} = .ok r ∧
      ((truthy (getProp (.obj f) "op") = true ∧
          jsIncludesStr ["add", "replace", "remove"] (getProp (.obj f) "op") = false) →
        (⟨"INVALID_OP", "updateDataModel.op must be one of: add, replace, remove",
          some "updateDataModel.op"⟩ : ValidationError) ∈ r.errors) ∧
      ((getProp (.obj f) "op" = .str "add" ∧ getProp (.obj f) "value" = .undef) →
        (⟨"MISSING_VALUE", "updateDataModel.value is required for add operation",
          some "updateDataModel.value"⟩ : ValidationError) ∈ r.errors) ∧
      ((getProp (.obj f) "op" = .str "remove" ∧ isUndef (getProp (.obj f) "value") = false) →
        r.valid = true ∧ r.errors = [] ∧
        (⟨"UNNECESSARY_VALUE", "updateDataModel.value should not be provided for remove operation",
          some "updateDataModel.value"⟩ : ValidationWarning) ∈ r.warnings) := by
  have h1 : jsIn "createSurface" (.obj [("updateDataModel", .obj f)]) = .ok false := rfl
  have h2 : jsIn "updateComponents" (.obj [("updateDataModel", .obj f)]) = .ok false := rfl
  have h3 : jsIn "updateDataModel" (.obj [("updateDataModel", .obj f)]) = .ok true := rfl
  have h4 : jsGet (.obj [("updateDataModel", .obj f)]) "updateDataModel" = .ok (.obj f) := rfl
  have h5 : ∀ k, jsGet (.obj f) k = .ok (getProp (.obj f) k) := fun k => rfl
  unfold MessageValidator.validateV09Message
  rw [h1]
  simp only [ok_bind, Bool.false_eq_true, if_false]
  rw [h2]
  simp only [ok_bind, Bool.false_eq_true, if_false]
  rw [h3]
  simp only [ok_bind, if_true]
  rw [h4]
  simp only [ok_bind]
  rw [h5 "surfaceId", h5 "op", h5 "value"]
  simp only [ok_bind, h, Bool.not_true, Bool.false_eq_true, if_false]
  refine ⟨_, rfl, ?_, ?_, ?_⟩
  · rintro ⟨hop1, hop2⟩
    simp [hop1, hop2]
  · rintro ⟨hop, hval⟩
    have hopt : truthy (getProp (.obj f) "op") = true := by rw [hop]; rfl
    have hrem : strictEqStr (getProp (.obj f) "op") "remove" = false := by
      rw [hop]; rfl
    have hadd : strictEqStr (getProp (.obj f) "op") "add" = true := by
      rw [hop]; rfl
    have hu : isUndef (getProp (.obj f) "value") = true := by rw [hval]; rfl
    simp only [hrem, Bool.not_false, hu, Bool.and_true, if_true, hadd]
    by_cases hinc : jsIncludesStr ["add", "replace", "remove"] (getProp (.obj f) "op") = true
    · simp [hopt, hinc]
    · simp [hopt, Bool.eq_false_iff.mpr hinc]
  · rintro ⟨hop, hval⟩
    have hrem : strictEqStr (getProp (.obj f) "op") "remove" = true := by
      rw [hop]; rfl
    have hinc : jsIncludesStr ["add", "replace", "remove"] (getProp (.obj f) "op") = true := by
      rw [hop]; rfl
    simp [hrem, hinc, hval]

/-- Witness for the amended C6 at the three concrete inputs of its
conditions: a bogus truthy op, an `add` without value, and a `remove` with
a value. -/
theorem claim_C6_update_data_model_witness :
    (truthy (getProp (.obj [("surfaceId", JsVal.str "s"), ("op", JsVal.str "bogus")])
        "surfaceId") = true ∧
      truthy (getProp (.obj [("surfaceId", JsVal.str "s"), ("op", JsVal.str "add")])
        "surfaceId") = true ∧
      truthy (getProp (.obj [("surfaceId", JsVal.str "s"), ("op", JsVal.str "remove"),
        ("value", JsVal.str "unused")]) "surfaceId") = true) ∧
    (∃ r, MessageValidator.validateV09Message
        (.obj [("updateDataModel", .obj [("surfaceId", JsVal.str "s"),
          ("op", JsVal.str "bogus")])]) {} = .ok r ∧
      ((truthy (getProp (.obj [("surfaceId", JsVal.str "s"), ("op", JsVal.str "bogus")]) "op")
          = true ∧
        jsIncludesStr ["add", "replace", "remove"]
          (getProp (.obj [("surfaceId", JsVal.str "s"), ("op", JsVal.str "bogus")]) "op")
          = false) →
        (⟨"INVALID_OP", "updateDataModel.op must be one of: add, replace, remove",
          some "updateDataModel.op"⟩ : ValidationError) ∈ r.errors) ∧
      ((getProp (.obj [("surfaceId", JsVal.str "s"), ("op", JsVal.str "bogus")]) "op"
          = .str "add" ∧
        getProp (.obj [("surfaceId", JsVal.str "s"), ("op", JsVal.str "bogus")]) "value"
          = .undef) →
        (⟨"MISSING_VALUE", "updateDataModel.value is required for add operation",
          some "updateDataModel.value"⟩ : ValidationError) ∈ r.errors) ∧
      ((getProp (.obj [("surfaceId", JsVal.str "s"), ("op", JsVal.str "bogus")]) "op"
          = .str "remove" ∧
        isUndef (getProp (.obj [("surfaceId", JsVal.str "s"), ("op", JsVal.str "bogus")]) "value")
          = false) →
        r.valid = true ∧ r.errors = [] ∧
        (⟨"UNNECESSARY_VALUE", "updateDataModel.value should not be provided for remove operation",
          some "updateDataModel.value"⟩ : ValidationWarning) ∈ r.warnings)) :=
  ⟨⟨rfl, rfl, rfl⟩,
   claim_C6_update_data_model [("surfaceId", JsVal.str "s"), ("op", JsVal.str "bogus")] rfl⟩

lemma isNullish_not_truthy {v : JsVal} (h : isNullish v = true) : truthy v = false := by
  cases v <;> simp_all [isNullish, truthy]

lemma truthy_not_isNullish {v : JsVal} (h : truthy v = true) : isNullish v = false := by
  cases v <;> simp_all [isNullish, truthy]

namespace MessageValidator

/-- Claim C9: batch entries that are null or undefined are skipped — they
contribute no errors and no warnings, do not affect validity, and the
other messages keep their original array index in the path prefixes. -/
theorem claim_C9_nullish_entries_skipped (msgs : List JsVal) (options : ValidationOptions)
    (h : ∀ m ∈ msgs, isNullish m = true ∨
        (truthy m = true ∧ exceptIsOk (validateMessage m options) = true)) :
    validateMessages msgs options =
      .ok ⟨((msgs.enum.map (fun p => if isNullish p.2 then [] else
              (okResult (validateMessage p.2 options)).errors.map (reErr p.1))).flatten).isEmpty,
           (msgs.enum.map (fun p => if isNullish p.2 then [] else
              (okResult (validateMessage p.2 options)).errors.map (reErr p.1))).flatten,
           (msgs.enum.map (fun p => if isNullish p.2 then [] else
              (okResult (validateMessage p.2 options)).warnings.map (reWarn p.1))).flatten⟩ := by
  have h' : ∀ m ∈ msgs, truthy m = false ∨ exceptIsOk (validateMessage m options) = true := by
    intro m hm
    rcases h m hm with hm' | hm'
    · exact Or.inl (isNullish_not_truthy hm')
    · exact Or.inr hm'.2
  unfold validateMessages
  rw [validateMessagesGo_eq options msgs 0 [] [] h']
  simp only [ok_bind, List.nil_append]
  have hE : (msgs.enumFrom 0).map (msgErrContrib options)
      = (msgs.enumFrom 0).map (fun p => if isNullish p.2 then [] else
          (okResult (validateMessage p.2 options)).errors.map (reErr p.1)) := by
    refine List.map_congr_left (fun p hp => ?_)
    rcases h p.2 (mem_enumFrom_snd msgs 0 hp) with hm' | hm'
    · simp [msgErrContrib, isNullish_not_truthy hm', hm']
    · simp [msgErrContrib, hm'.1, truthy_not_isNullish hm'.1]
  have hW : (msgs.enumFrom 0).map (msgWarnContrib options)
      = (msgs.enumFrom 0).map (fun p => if isNullish p.2 then [] else
          (okResult (validateMessage p.2 options)).warnings.map (reWarn p.1)) := by
    refine List.map_congr_left (fun p hp => ?_)
    rcases h p.2 (mem_enumFrom_snd msgs 0 hp) with hm' | hm'
    · simp [msgWarnContrib, isNullish_not_truthy hm', hm']
    · simp [msgWarnContrib, hm'.1, truthy_not_isNullish hm'.1]
  rw [hE, hW]
  rfl

/-- Witness for C9: a batch whose first entry is `null`; the null entry
contributes nothing and the message after it keeps index 1. -/
theorem claim_C9_nullish_entries_skipped_witness :
    (∀ m ∈ [JsVal.null, sampleBadDelete], isNullish m = true ∨
        (truthy m = true ∧ exceptIsOk (validateMessage m {}) = true)) ∧
    validateMessages [JsVal.null, sampleBadDelete] {} =
      .ok ⟨((([JsVal.null, sampleBadDelete]).enum.map (fun p => if isNullish p.2 then [] else
              (okResult (validateMessage p.2 {})).errors.map (reErr p.1))).flatten).isEmpty,
           (([JsVal.null, sampleBadDelete]).enum.map (fun p => if isNullish p.2 then [] else
              (okResult (validateMessage p.2 {})).errors.map (reErr p.1))).flatten,
           (([JsVal.null, sampleBadDelete]).enum.map (fun p => if isNullish p.2 then [] else
              (okResult (validateMessage p.2 {})).warnings.map (reWarn p.1))).flatten⟩ :=
  ⟨by decide, claim_C9_nullish_entries_skipped [JsVal.null, sampleBadDelete] {} (by decide)⟩

/-- Every error or warning of a successful batch run is either inherited
from the accumulator or comes from the message at some batch index, with
its path rewritten by `reErr`/`reWarn`. -/
lemma validateMessagesGo_provenance (options : ValidationOptions) :
    ∀ (msgs : List JsVal) (i : Nat) (es : List ValidationError)
      (ws : List ValidationWarning) (out : List ValidationError × List ValidationWarning),
      validateMessagesGo options msgs i es ws = .ok out →
      (∀ e ∈ out.1, e ∈ es ∨ ∃ j m r' e', msgs.get? j = some m ∧ truthy m = true ∧
          validateMessage m options = .ok r' ∧ e' ∈ r'.errors ∧ e = reErr (i + j) e') ∧
      (∀ w ∈ out.2, w ∈ ws ∨ ∃ j m r' w', msgs.get? j = some m ∧ truthy m = true ∧
          validateMessage m options = .ok r' ∧ w' ∈ r'.warnings ∧ w = reWarn (i + j) w') := by
  intro msgs
  induction msgs with
  | nil =>
    intro i es ws out h
    cases h
    exact ⟨fun e he => Or.inl he, fun w hw => Or.inl hw⟩
  | cons m rest ih =>
    intro i es ws out h
    by_cases htr : truthy m
    · rw [validateMessagesGo, if_neg (by simp [htr])] at h
      cases hr : validateMessage m options with
      | error err => rw [hr, error_bind] at h; cases h
      | ok r =>
        rw [hr, ok_bind] at h
        have hrec := ih (i + 1) _ _ out h
        constructor
        · intro e he
          rcases hrec.1 e he with hin | ⟨j, m', r', e', hg, ht', hv', he', hee⟩
          · rcases List.mem_append.mp hin with hin | hin
            · exact Or.inl hin
            · rcases List.mem_map.mp hin with ⟨e', he', hee⟩
              refine Or.inr ⟨0, m, r, e', rfl, htr, hr, he', ?_⟩
              rw [Nat.add_zero]
              exact hee.symm
          · refine Or.inr ⟨j + 1, m', r', e', ?_, ht', hv', he', ?_⟩
            · rw [List.get?_cons_succ]
              exact hg
            · rw [show i + (j + 1) = i + 1 + j by omega]
              exact hee
        · intro w hw
          rcases hrec.2 w hw with hin | ⟨j, m', r', w', hg, ht', hv', hw', hww⟩
          · rcases List.mem_append.mp hin with hin | hin
            · exact Or.inl hin
            · rcases List.mem_map.mp hin with ⟨w', hw', hww⟩
              refine Or.inr ⟨0, m, r, w', rfl, htr, hr, hw', ?_⟩
              rw [Nat.add_zero]
              exact hww.symm
          · refine Or.inr ⟨j + 1, m', r', w', ?_, ht', hv', hw', ?_⟩
            · rw [List.get?_cons_succ]
              exact hg
            · rw [show i + (j + 1) = i + 1 + j by omega]
              exact hww
    · rw [validateMessagesGo, if_pos (by simp [htr])] at h
      have hrec := ih (i + 1) _ _ out h
      constructor
      · intro e he
        rcases hrec.1 e he with hin | ⟨j, m', r', e', hg, ht', hv', he', hee⟩
        · exact Or.inl hin
        · refine Or.inr ⟨j + 1, m', r', e', ?_, ht', hv', he', ?_⟩
          · rw [List.get?_cons_succ]
            exact hg
          · rw [show i + (j + 1) = i + 1 + j by omega]
            exact hee
      · intro w hw
        rcases hrec.2 w hw with hin | ⟨j, m', r', w', hg, ht', hv', hw', hww⟩
        · exact Or.inl hin
        · refine Or.inr ⟨j + 1, m', r', w', ?_, ht', hv', hw', ?_⟩
          · rw [List.get?_cons_succ]
            exact hg
          · rw [show i + (j + 1) = i + 1 + j by omega]
            exact hww

/-- Claim C10: every error and warning of a successful `validateMessages`
run carries a defined path of the form `messages[i].` followed by the
underlying per-message path (empty when the per-message error had none, in
which case the batch path is exactly `messages[i].` with a trailing dot),
where `i` is the index of the source message in the input batch. -/
theorem claim_C10_batch_path_prefixes (msgs : List JsVal) (options : ValidationOptions)
    (r : ValidationResult) (h : validateMessages msgs options = .ok r) :
    (∀ e ∈ r.errors, ∃ i m r' e', msgs.get? i = some m ∧ truthy m = true ∧
        validateMessage m options = .ok r' ∧ e' ∈ r'.errors ∧
        e.path = some ("messages[" ++ toString i ++ "]." ++ e'.path.getD "") ∧
        (e'.path = none → e.path = some ("messages[" ++ toString i ++ "]."))) ∧
    (∀ w ∈ r.warnings, ∃ i m r' w', msgs.get? i = some m ∧ truthy m = true ∧
        validateMessage m options = .ok r' ∧ w' ∈ r'.warnings ∧
        w.path = some ("messages[" ++ toString i ++ "]." ++ w'.path.getD "") ∧
        (w'.path = none → w.path = some ("messages[" ++ toString i ++ "]."))) := by
  unfold validateMessages at h
  cases hgo : validateMessagesGo options msgs 0 [] [] with
  | error err => rw [hgo, error_bind] at h; cases h
  | ok out =>
    rw [hgo, ok_bind] at h
    cases h
    have hprov := validateMessagesGo_provenance options msgs 0 [] [] out hgo
    constructor
    · intro e he
      rcases hprov.1 e he with hin | ⟨j, m, r', e', hg, ht, hv, he', hee⟩
      · cases hin
      · refine ⟨j, m, r', e', hg, ht, hv, he', ?_, ?_⟩
        · rw [hee]
          simp [reErr]
        · intro hnone
          rw [hee]
          simp [reErr, hnone]
    · intro w hw
      rcases hprov.2 w hw with hin | ⟨j, m, r', w', hg, ht, hv, hw', hww⟩
      · cases hin
      · refine ⟨j, m, r', w', hg, ht, hv, hw', ?_, ?_⟩
        · rw [hww]
          simp [reWarn]
        · intro hnone
          rw [hww]
          simp [reWarn, hnone]

/-- Witness for C10: a one-message batch whose message is an empty object,
so its only error, `INVALID_MESSAGE_TYPE`, has no per-message path and the
batch path is exactly `messages[0].`. -/
theorem claim_C10_batch_path_prefixes_witness :
    (validateMessages [JsVal.obj []] {} =
      .ok ⟨false,
        [⟨"INVALID_MESSAGE_TYPE",
          "Message must contain one of: createSurface, updateComponents, updateDataModel, deleteSurface",
          some "messages[0]."⟩], []⟩) ∧
    (∀ e ∈ [(⟨"INVALID_MESSAGE_TYPE",
          "Message must contain one of: createSurface, updateComponents, updateDataModel, deleteSurface",
          some "messages[0]."⟩ : ValidationError)],
      ∃ i m r' e', [JsVal.obj []].get? i = some m ∧ truthy m = true ∧
        validateMessage m {} = .ok r' ∧ e' ∈ r'.errors ∧
        e.path = some ("messages[" ++ toString i ++ "]." ++ e'.path.getD "") ∧
        (e'.path = none → e.path = some ("messages[" ++ toString i ++ "]."))) :=
  ⟨rfl,
   (claim_C10_batch_path_prefixes [JsVal.obj []] {}
     ⟨false,
      [⟨"INVALID_MESSAGE_TYPE",
        "Message must contain one of: createSurface, updateComponents, updateDataModel, deleteSurface",
        some "messages[0]."⟩], []⟩ rfl).1⟩

/-- The `DUPLICATE_COMPONENT_ID` error pushed for a repeated string id `s`
at index `i`. -/
def dupErr (i : Nat) (s : String) : ValidationError :=
  ⟨"DUPLICATE_COMPONENT_ID", "Duplicate component id: " ++ s,
   some (compPath i ++ ".id")⟩

lemma jsDisplay_str (s : String) : jsDisplay (.str s) = s := rfl

lemma compStep_errors_mono (o : ValidationOptions) (i : Nat) (c : JsVal)
    (st : CompState) (e : ValidationError) (h : e ∈ st.errors) :
    e ∈ (compStep o i c st).errors := by
  simp only [compStep]
  cases hac : o.allowedComponents <;> split_ifs <;> simp_all

lemma compStep_seen_mono (o : ValidationOptions) (i : Nat) (c : JsVal)
    (st : CompState) (v : JsVal) (h : jsSetHas st.seen v = true) :
    jsSetHas (compStep o i c st).seen v = true := by
  simp only [compStep]
  cases hac : o.allowedComponents <;> split_ifs <;>
    simp_all [jsSetHas, List.any_append]

lemma compStep_seen_self (o : ValidationOptions) (i : Nat) (c : JsVal)
    (st : CompState) (s : String) (htr : truthy c = true)
    (hs : getProp c "id" = .str s) (hne : s ≠ "") :
    jsSetHas (compStep o i c st).seen (.str s) = true := by
  have hid : truthy (getProp c "id") = true := by rw [hs]; simp [truthy, hne]
  simp only [compStep]
  cases hac : o.allowedComponents <;> split_ifs <;>
    simp_all [jsSetHas, List.any_append, sameValueZero]

lemma compStep_dup (o : ValidationOptions) (i : Nat) (c : JsVal) (st : CompState)
    (s : String) (htr : truthy c = true) (hs : getProp c "id" = .str s) (hne : s ≠ "")
    (hseen : jsSetHas st.seen (.str s) = true) :
    dupErr i s ∈ (compStep o i c st).errors := by
  have hid : truthy (getProp c "id") = true := by rw [hs]; simp [truthy, hne]
  simp only [compStep]
  cases hac : o.allowedComponents <;> split_ifs <;>
    simp_all [dupErr, jsDisplay_str]

lemma validateComponentsGo_errors_mono (o : ValidationOptions) :
    ∀ (comps : List JsVal) (i : Nat) (st : CompState) (e : ValidationError),
      e ∈ st.errors → e ∈ (validateComponentsGo o comps i st).errors := by
  intro comps
  induction comps with
  | nil => intro i st e h; exact h
  | cons c rest ih =>
    intro i st e h
    exact ih (i + 1) _ e (compStep_errors_mono o i c st e h)

lemma validateComponentsGo_dup (o : ValidationOptions) :
    ∀ (comps : List JsVal) (i₀ : Nat) (st : CompState) (k : Nat) (ck : JsVal) (s : String),
      comps.get? k = some ck → truthy ck = true → getProp ck "id" = .str s → s ≠ "" →
      (jsSetHas st.seen (.str s) = true ∨
        ∃ j cj, j < k ∧ comps.get? j = some cj ∧ truthy cj = true ∧
          getProp cj "id" = .str s) →
      dupErr (i₀ + k) s ∈ (validateComponentsGo o comps i₀ st).errors := by
  intro comps
  induction comps with
  | nil => intro i₀ st k ck s hk; simp at hk
  | cons c rest ih =>
    intro i₀ st k ck s hk htr hs hne hpre
    cases k with
    | zero =>
      have hc : c = ck := by simpa using hk
      subst hc
      rcases hpre with hseen | ⟨j, cj, hj, _, _, _⟩
      · rw [Nat.add_zero]
        exact validateComponentsGo_errors_mono o rest (i₀ + 1) _ _
          (compStep_dup o i₀ c st s htr hs hne hseen)
      · omega
    | succ k' =>
      have hk' : rest.get? k' = some ck := by simpa using hk
      have hpre' : jsSetHas (compStep o i₀ c st).seen (.str s) = true ∨
          ∃ j cj, j < k' ∧ rest.get? j = some cj ∧ truthy cj = true ∧
            getProp cj "id" = .str s := by
        rcases hpre with hseen | ⟨j, cj, hj, hgj, htj, hsj⟩
        · exact Or.inl (compStep_seen_mono o i₀ c st _ hseen)
        · cases j with
          | zero =>
            have hc : c = cj := by simpa using hgj
            subst hc
            exact Or.inl (compStep_seen_self o i₀ c st s htj hsj hne)
          | succ j' =>
            refine Or.inr ⟨j', cj, by omega, by simpa using hgj, htj, hsj⟩
      have := ih (i₀ + 1) (compStep o i₀ c st) k' ck s hk' htr hs hne hpre'
      rw [show i₀ + (k' + 1) = i₀ + 1 + k' by omega]
      exact this

/-- The `updateComponents` message of spec scenario 3: two `Text`
components that share the id `"x"`. -/
def dupIdScenarioMsg : JsVal :=
  .obj [("updateComponents", .obj [("surfaceId", .str "s"),
    ("components", .arr
      [.obj [("id", .str "x"), ("component", .str "Text"), ("text", .str "Hello")],
       .obj [("id", .str "x"), ("component", .str "Text"), ("text", .str "Hi")]])])]

/-- Claim C8: in a components array, a component at index `i` whose
non-empty (string) id equals the id of some earlier component yields a
`DUPLICATE_COMPONENT_ID` error at `updateComponents.components[i].id` —
regardless of how many other components or duplicates surround it, i.e.
validation does not stop — and the two-`Text` scenario yields
`valid: false` with that error at `components[1].id`. -/
theorem claim_C8_duplicate_component_id :
    (∀ (comps : List JsVal) (options : ValidationOptions) (i j : Nat)
       (ci cj : JsVal) (s : String),
       comps.get? i = some ci → comps.get? j = some cj → j < i →
       truthy ci = true → getProp ci "id" = .str s → s ≠ "" →
       truthy cj = true → getProp cj "id" = .str s →
       dupErr i s ∈ (validateComponents comps options).1) ∧
    validateV09Message dupIdScenarioMsg {} =
      .ok ⟨false,
        [⟨"DUPLICATE_COMPONENT_ID", "Duplicate component id: x",
          some "updateComponents.components[1].id"⟩], []⟩ := by
  constructor
  · intro comps options i j ci cj s hgi hgj hji htri hsi hne htrj hsj
    have := validateComponentsGo_dup options comps 0 ⟨[], [], [], false⟩ i ci s
      hgi htri hsi hne (Or.inr ⟨j, cj, hji, hgj, htrj, hsj⟩)
    simpa [validateComponents] using this
  · rfl

/-- Witness for C8's universally quantified part at the scenario's concrete
array. -/
theorem claim_C8_duplicate_component_id_witness :
    dupErr 1 "x" ∈ (validateComponents
      [.obj [("id", .str "x"), ("component", .str "Text"), ("text", .str "Hello")],
       .obj [("id", .str "x"), ("component", .str "Text"), ("text", .str "Hi")]] {}).1 :=
  claim_C8_duplicate_component_id.1
    [.obj [("id", .str "x"), ("component", .str "Text"), ("text", .str "Hello")],
     .obj [("id", .str "x"), ("component", .str "Text"), ("text", .str "Hi")]]
    {} 1 0 _ _ "x" rfl rfl (by omega) rfl rfl (by decide) rfl rfl

lemma compStep_proj_opts (o₁ o₂ : ValidationOptions) (i : Nat) (c : JsVal)
    (st₁ st₂ : CompState) (he : st₁.errors = st₂.errors) (hs : st₁.seen = st₂.seen)
    (hr : st₁.hasRoot = st₂.hasRoot) :
    (compStep o₁ i c st₁).errors = (compStep o₂ i c st₂).errors ∧
    (compStep o₁ i c st₁).seen = (compStep o₂ i c st₂).seen ∧
    (compStep o₁ i c st₁).hasRoot = (compStep o₂ i c st₂).hasRoot := by
  simp only [compStep]
  split_ifs <;> simp_all

lemma validateComponentsGo_proj_opts (o₁ o₂ : ValidationOptions) :
    ∀ (comps : List JsVal) (i : Nat) (st₁ st₂ : CompState),
      st₁.errors = st₂.errors → st₁.seen = st₂.seen → st₁.hasRoot = st₂.hasRoot →
      (validateComponentsGo o₁ comps i st₁).errors
          = (validateComponentsGo o₂ comps i st₂).errors ∧
      (validateComponentsGo o₁ comps i st₁).hasRoot
          = (validateComponentsGo o₂ comps i st₂).hasRoot := by
  intro comps
  induction comps with
  | nil => intro i st₁ st₂ he hs hr; exact ⟨he, hr⟩
  | cons c rest ih =>
    intro i st₁ st₂ he hs hr
    have hstep := compStep_proj_opts o₁ o₂ i c st₁ st₂ he hs hr
    exact ih (i + 1) _ _ hstep.1 hstep.2.1 hstep.2.2

lemma compStep_warnings_nonstrict (o : ValidationOptions) (h : o.strict = false)
    (i : Nat) (c : JsVal) (st : CompState) :
    (compStep o i c st).warnings = st.warnings := by
  simp only [compStep]
  split_ifs <;> simp_all

lemma validateComponentsGo_warnings_nonstrict (o : ValidationOptions)
    (h : o.strict = false) :
    ∀ (comps : List JsVal) (i : Nat) (st : CompState),
      (validateComponentsGo o comps i st).warnings = st.warnings := by
  intro comps
  induction comps with
  | nil => intro i st; rfl
  | cons c rest ih =>
    intro i st
    rw [validateComponentsGo, ih (i + 1), compStep_warnings_nonstrict o h]

lemma validateComponents_errors_opts (comps : List JsVal) (o₁ o₂ : ValidationOptions) :
    (validateComponents comps o₁).1 = (validateComponents comps o₂).1 :=
  (validateComponentsGo_proj_opts o₁ o₂ comps 0 ⟨[], [], [], false⟩ ⟨[], [], [], false⟩
    rfl rfl rfl).1

lemma validateComponents_warnings_nonstrict (comps : List JsVal)
    (ac : Option (List String)) :
    (validateComponents comps ⟨false, ac⟩).2 = [] := by
  simp only [validateComponents]
  rw [validateComponentsGo_warnings_nonstrict ⟨false, ac⟩ rfl]
  simp

/-- Claim C7: for every message and any allow-list, validating with
`{strict: true}` produces exactly the same errors as `{strict: false}` and
a warnings list containing every non-strict warning (strict mode only adds
warnings); when evaluation throws, it throws identically under both
settings. -/
theorem claim_C7_strict_monotonic (msg : JsVal) (ac : Option (List String)) :
    (∃ e, validateV09Message msg ⟨false, ac⟩ = .error e ∧
        validateV09Message msg ⟨true, ac⟩ = .error e) ∨
    (∃ r₀ r₁, validateV09Message msg ⟨false, ac⟩ = .ok r₀ ∧
        validateV09Message msg ⟨true, ac⟩ = .ok r₁ ∧
        r₁.errors = r₀.errors ∧ ∀ w ∈ r₀.warnings, w ∈ r₁.warnings) := by
  cases h1 : jsIn "createSurface" msg
  case error e =>
    refine Or.inl ⟨e, ?_, ?_⟩ <;>
      simp only [validateV09Message, h1, ok_bind, error_bind]
  case ok b1 =>
  cases b1
  case true =>
    cases h5 : jsGet msg "createSurface"
    case error e =>
      refine Or.inl ⟨e, ?_, ?_⟩ <;>
        simp only [validateV09Message, h1, h5, ok_bind, error_bind, pure_eq_ok,
          eq_self_iff_true, if_true]
    case ok cs =>
    cases h6 : jsGet cs "surfaceId"
    case error e =>
      refine Or.inl ⟨e, ?_, ?_⟩ <;>
        simp only [validateV09Message, h1, h5, h6, ok_bind, error_bind, pure_eq_ok,
          eq_self_iff_true, if_true]
    case ok sid =>
    cases h7 : jsGet cs "catalogId"
    case error e =>
      refine Or.inl ⟨e, ?_, ?_⟩ <;>
        simp only [validateV09Message, h1, h5, h6, h7, ok_bind, error_bind, pure_eq_ok,
          eq_self_iff_true, if_true]
    case ok cid =>
      refine Or.inr ⟨okResult (validateV09Message msg ⟨false, ac⟩),
          okResult (validateV09Message msg ⟨true, ac⟩), ?_, ?_, ?_, ?_⟩ <;>
        simp only [validateV09Message, h1, h5, h6, h7, ok_bind, error_bind, pure_eq_ok,
          Bool.false_eq_true, if_false, eq_self_iff_true, if_true, okResult] <;>
        exact fun w hw => hw
  case false =>
  cases h2 : jsIn "updateComponents" msg
  case error e =>
    refine Or.inl ⟨e, ?_, ?_⟩ <;>
      simp only [validateV09Message, h1, h2, ok_bind, error_bind, pure_eq_ok,
        Bool.false_eq_true, if_false]
  case ok b2 =>
  cases b2
  case true =>
    cases h5 : jsGet msg "updateComponents"
    case error e =>
      refine Or.inl ⟨e, ?_, ?_⟩ <;>
        simp only [validateV09Message, h1, h2, h5, ok_bind, error_bind, pure_eq_ok,
          Bool.false_eq_true, if_false, eq_self_iff_true, if_true]
    case ok uc =>
    cases h6 : jsGet uc "surfaceId"
    case error e =>
      refine Or.inl ⟨e, ?_, ?_⟩ <;>
        simp only [validateV09Message, h1, h2, h5, h6, ok_bind, error_bind, pure_eq_ok,
          Bool.false_eq_true, if_false, eq_self_iff_true, if_true]
    case ok sid =>
    cases h7 : jsGet uc "components"
    case error e =>
      refine Or.inl ⟨e, ?_, ?_⟩ <;>
        simp only [validateV09Message, h1, h2, h5, h6, h7, ok_bind, error_bind, pure_eq_ok,
          Bool.false_eq_true, if_false, eq_self_iff_true, if_true]
    case ok compsV =>
    by_cases hbad : (!truthy compsV || !compsV.isArr) = true
    · refine Or.inr ⟨okResult (validateV09Message msg ⟨false, ac⟩),
          okResult (validateV09Message msg ⟨true, ac⟩), ?_, ?_, ?_, ?_⟩ <;>
        simp only [validateV09Message, h1, h2, h5, h6, h7, hbad, ok_bind, error_bind, pure_eq_ok,
          Bool.false_eq_true, if_false, eq_self_iff_true, if_true, okResult] <;>
        exact fun w hw => hw
    · have hbad' : (!truthy compsV || !compsV.isArr) = false :=
        Bool.eq_false_iff.mpr hbad
      rcases hv0 : validateComponents compsV.elemsOf ⟨false, ac⟩ with ⟨E₀, W₀⟩
      rcases hv1 : validateComponents compsV.elemsOf ⟨true, ac⟩ with ⟨E₁, W₁⟩
      have hE : E₁ = E₀ := by
        have h := validateComponents_errors_opts compsV.elemsOf ⟨true, ac⟩ ⟨false, ac⟩
        rw [hv0, hv1] at h
        exact h
      have hW : W₀ = [] := by
        have h := validateComponents_warnings_nonstrict compsV.elemsOf ac
        rw [hv0] at h
        exact h
      refine Or.inr ⟨okResult (validateV09Message msg ⟨false, ac⟩),
          okResult (validateV09Message msg ⟨true, ac⟩), ?_, ?_, ?_, ?_⟩ <;>
        simp only [validateV09Message, h1, h2, h5, h6, h7, hv0, hv1, ok_bind, error_bind, pure_eq_ok,
          Bool.false_eq_true, if_false, eq_self_iff_true, if_true, hbad', okResult]
      · simp [hE]
      · simp [hW]
  case false =>
  cases h3 : jsIn "updateDataModel" msg
  case error e =>
    refine Or.inl ⟨e, ?_, ?_⟩ <;>
      simp only [validateV09Message, h1, h2, h3, ok_bind, error_bind, pure_eq_ok,
        Bool.false_eq_true, if_false]
  case ok b3 =>
  cases b3
  case true =>
    cases h5 : jsGet msg "updateDataModel"
    case error e =>
      refine Or.inl ⟨e, ?_, ?_⟩ <;>
        simp only [validateV09Message, h1, h2, h3, h5, ok_bind, error_bind, pure_eq_ok,
          Bool.false_eq_true, if_false, eq_self_iff_true, if_true]
    case ok udm =>
    cases h6 : jsGet udm "surfaceId"
    case error e =>
      refine Or.inl ⟨e, ?_, ?_⟩ <;>
        simp only [validateV09Message, h1, h2, h3, h5, h6, ok_bind, error_bind, pure_eq_ok,
          Bool.false_eq_true, if_false, eq_self_iff_true, if_true]
    case ok sid =>
    cases h7 : jsGet udm "op"
    case error e =>
      refine Or.inl ⟨e, ?_, ?_⟩ <;>
        simp only [validateV09Message, h1, h2, h3, h5, h6, h7, ok_bind, error_bind, pure_eq_ok,
          Bool.false_eq_true, if_false, eq_self_iff_true, if_true]
    case ok opV =>
    cases h8 : jsGet udm "value"
    case error e =>
      refine Or.inl ⟨e, ?_, ?_⟩ <;>
        simp only [validateV09Message, h1, h2, h3, h5, h6, h7, h8, ok_bind, error_bind, pure_eq_ok,
          Bool.false_eq_true, if_false, eq_self_iff_true, if_true]
    case ok valV =>
      refine Or.inr ⟨okResult (validateV09Message msg ⟨false, ac⟩),
          okResult (validateV09Message msg ⟨true, ac⟩), ?_, ?_, ?_, ?_⟩ <;>
        simp only [validateV09Message, h1, h2, h3, h5, h6, h7, h8, ok_bind, error_bind, pure_eq_ok,
          Bool.false_eq_true, if_false, eq_self_iff_true, if_true, okResult] <;>
        exact fun w hw => hw
  case false =>
  cases h4 : jsIn "deleteSurface" msg
  case error e =>
    refine Or.inl ⟨e, ?_, ?_⟩ <;>
      simp only [validateV09Message, h1, h2, h3, h4, ok_bind, error_bind, pure_eq_ok,
        Bool.false_eq_true, if_false]
  case ok b4 =>
  cases b4
  case true =>
    cases h5 : jsGet msg "deleteSurface"
    case error e =>
      refine Or.inl ⟨e, ?_, ?_⟩ <;>
        simp only [validateV09Message, h1, h2, h3, h4, h5, ok_bind, error_bind, pure_eq_ok,
          Bool.false_eq_true, if_false, eq_self_iff_true, if_true]
    case ok ds =>
    cases h6 : jsGet ds "surfaceId"
    case error e =>
      refine Or.inl ⟨e, ?_, ?_⟩ <;>
        simp only [validateV09Message, h1, h2, h3, h4, h5, h6, ok_bind, error_bind, pure_eq_ok,
          Bool.false_eq_true, if_false, eq_self_iff_true, if_true]
    case ok sid =>
      refine Or.inr ⟨okResult (validateV09Message msg ⟨false, ac⟩),
          okResult (validateV09Message msg ⟨true, ac⟩), ?_, ?_, ?_, ?_⟩ <;>
        simp only [validateV09Message, h1, h2, h3, h4, h5, h6, ok_bind, error_bind, pure_eq_ok,
          Bool.false_eq_true, if_false, eq_self_iff_true, if_true, okResult] <;>
        exact fun w hw => hw
  case false =>
    refine Or.inr ⟨okResult (validateV09Message msg ⟨false, ac⟩),
          okResult (validateV09Message msg ⟨true, ac⟩), ?_, ?_, ?_, ?_⟩ <;>
        simp only [validateV09Message, h1, h2, h3, h4, ok_bind, error_bind, pure_eq_ok,
          Bool.false_eq_true, if_false, eq_self_iff_true, if_true, okResult] <;>
        exact fun w hw => hw

end MessageValidator

/-- The required-field table of spec 4.2, stated from the spec's words (the
claim's authority for which fields each standard kind requires); unknown
kinds require nothing. This is the specification-side definition that the
code-side `PropValidator.validateComponentPropertiesStr` is compared
against. -/
def specRequiredFields (k : String) : List String :=
  if k == "Text" then ["text"]
  else if k == "Image" || k == "Video" || k == "AudioPlayer" then ["url"]
  else if k == "Icon" then ["name"]
  else if k == "Row" || k == "Column" || k == "List" then ["children"]
  else if k == "Card" then ["child"]
  else if k == "Tabs" then ["tabs"]
  else if k == "Modal" then ["trigger", "content"]
  else if k == "Button" then ["child", "action"]
  else if k == "CheckBox" then ["label", "value"]
  else if k == "TextField" then ["label"]
  else if k == "DateTimeInput" then ["value"]
  else if k == "ChoicePicker" then ["options", "value"]
  else if k == "Slider" then ["value", "min", "max"]
  else []

/-- Projection of an error list to the (code, path) pairs of its
`MISSING_REQUIRED_PROPERTY` entries, in order. -/
def mrpPathsOf (es : List ValidationError) : List (String × Option String) :=
  (es.filter (fun e => e.code == "MISSING_REQUIRED_PROPERTY")).map
    (fun e => (e.code, e.path))

/-- The `MISSING_REQUIRED_PROPERTY` (code, path) pairs the spec demands for
the component at index `p.1`: one entry per required field of the
component's kind (per spec 4.2) whose value is `undefined`, at
`updateComponents.components[i].<field>`. Skipped (falsy) components
contribute nothing; so do non-string or falsy kinds, whose required-field
table is empty. -/
def specMissingRequired (p : Nat × JsVal) : List (String × Option String) :=
  if truthy p.2 then
    match getProp p.2 "component" with
    | .str k =>
        ((specRequiredFields k).filter (fun f => isUndef (getProp p.2 f))).map
          (fun f => ("MISSING_REQUIRED_PROPERTY",
            some (MessageValidator.compPath p.1 ++ "." ++ f)))
    | _ => []
  else []

lemma mrpPathsOf_append (a b : List ValidationError) :
    mrpPathsOf (a ++ b) = mrpPathsOf a ++ mrpPathsOf b := by
  simp [mrpPathsOf]

lemma mrpPathsOf_vcpStr (k : String) (comp : JsVal) (path : String) :
    mrpPathsOf (PropValidator.validateComponentPropertiesStr k comp path)
      = ((specRequiredFields k).filter (fun f => isUndef (getProp comp f))).map
          (fun f => ("MISSING_REQUIRED_PROPERTY", some (path ++ "." ++ f))) := by
  unfold PropValidator.validateComponentPropertiesStr specRequiredFields
  cases h1 : (k == "Text")
  case true =>
    simp only [h1, eq_self_iff_true, if_true]
    split_ifs <;> simp_all [mrpPathsOf, List.filter_cons, List.filter_nil, String.append_assoc]
  case false =>
  simp only [h1, Bool.false_eq_true, if_false]
  cases h2 : (k == "Image" || k == "Video" || k == "AudioPlayer")
  case true =>
    simp only [h2, eq_self_iff_true, if_true]
    split_ifs <;> simp_all [mrpPathsOf, List.filter_cons, List.filter_nil, String.append_assoc]
  case false =>
  simp only [h2, Bool.false_eq_true, if_false]
  cases h3 : (k == "Icon")
  case true =>
    simp only [h3, eq_self_iff_true, if_true]
    split_ifs <;> simp_all [mrpPathsOf, List.filter_cons, List.filter_nil, String.append_assoc]
  case false =>
  simp only [h3, Bool.false_eq_true, if_false]
  cases h4 : (k == "Row" || k == "Column" || k == "List")
  case true =>
    simp only [h4, eq_self_iff_true, if_true]
    split_ifs <;> simp_all [mrpPathsOf, List.filter_cons, List.filter_nil, String.append_assoc]
  case false =>
  simp only [h4, Bool.false_eq_true, if_false]
  cases h5 : (k == "Card")
  case true =>
    simp only [h5, eq_self_iff_true, if_true]
    split_ifs <;> simp_all [mrpPathsOf, List.filter_cons, List.filter_nil, String.append_assoc]
  case false =>
  simp only [h5, Bool.false_eq_true, if_false]
  cases h6 : (k == "Tabs")
  case true =>
    simp only [h6, eq_self_iff_true, if_true]
    split_ifs <;> simp_all [mrpPathsOf, List.filter_cons, List.filter_nil, String.append_assoc]
  case false =>
  simp only [h6, Bool.false_eq_true, if_false]
  cases h7 : (k == "Modal")
  case true =>
    simp only [h7, eq_self_iff_true, if_true]
    split_ifs <;> simp_all [mrpPathsOf, List.filter_cons, List.filter_nil, String.append_assoc]
  case false =>
  simp only [h7, Bool.false_eq_true, if_false]
  cases h8 : (k == "Button")
  case true =>
    simp only [h8, eq_self_iff_true, if_true]
    split_ifs <;> simp_all [mrpPathsOf, List.filter_cons, List.filter_nil, String.append_assoc]
  case false =>
  simp only [h8, Bool.false_eq_true, if_false]
  cases h9 : (k == "CheckBox")
  case true =>
    simp only [h9, eq_self_iff_true, if_true]
    split_ifs <;> simp_all [mrpPathsOf, List.filter_cons, List.filter_nil, String.append_assoc]
  case false =>
  simp only [h9, Bool.false_eq_true, if_false]
  cases h10 : (k == "TextField")
  case true =>
    simp only [h10, eq_self_iff_true, if_true]
    split_ifs <;> simp_all [mrpPathsOf, List.filter_cons, List.filter_nil, String.append_assoc]
  case false =>
  simp only [h10, Bool.false_eq_true, if_false]
  cases h11 : (k == "DateTimeInput")
  case true =>
    simp only [h11, eq_self_iff_true, if_true]
    split_ifs <;> simp_all [mrpPathsOf, List.filter_cons, List.filter_nil, String.append_assoc]
  case false =>
  simp only [h11, Bool.false_eq_true, if_false]
  cases h12 : (k == "ChoicePicker")
  case true =>
    simp only [h12, eq_self_iff_true, if_true]
    split_ifs <;> simp_all [mrpPathsOf, List.filter_cons, List.filter_nil, String.append_assoc]
  case false =>
  simp only [h12, Bool.false_eq_true, if_false]
  cases h13 : (k == "Slider")
  case true =>
    simp only [h13, eq_self_iff_true, if_true]
    split_ifs <;> simp_all [mrpPathsOf, List.filter_cons, List.filter_nil, String.append_assoc]
  case false =>
  simp only [h13, Bool.false_eq_true, if_false]
  simp [mrpPathsOf]


lemma mrpPathsOf_vcp (comp : JsVal) (path : String) :
    mrpPathsOf (PropValidator.validateComponentProperties comp path)
      = match getProp comp "component" with
        | .str k =>
            ((specRequiredFields k).filter (fun f => isUndef (getProp comp f))).map
              (fun f => ("MISSING_REQUIRED_PROPERTY", some (path ++ "." ++ f)))
        | _ => [] := by
  unfold PropValidator.validateComponentProperties
  cases getProp comp "component" <;>
    first
      | exact mrpPathsOf_vcpStr _ comp path
      | simp [mrpPathsOf]

lemma mrpPathsOf_compStep (o : ValidationOptions) (i : Nat) (c : JsVal)
    (st : MessageValidator.CompState) :
    mrpPathsOf (PropValidator.compStep o i c st).errors
      = mrpPathsOf st.errors ++ specMissingRequired (i, c) := by
  simp only [PropValidator.compStep, specMissingRequired]
  by_cases htr : truthy c
  · by_cases hk : truthy (getProp c "component")
    · simp only [htr, hk, Bool.not_true, Bool.false_eq_true, if_false,
        eq_self_iff_true, if_true]
      simp only [mrpPathsOf_append, apply_ite mrpPathsOf, mrpPathsOf_vcp]
      simp [mrpPathsOf, ite_self]
    · simp only [htr, hk, Bool.not_true, Bool.not_false, Bool.false_eq_true, if_false,
        eq_self_iff_true, if_true]
      simp only [mrpPathsOf_append, apply_ite mrpPathsOf]
      cases hkv : getProp c "component" <;>
        simp_all [mrpPathsOf, truthy, specRequiredFields, ite_self]
  · simp [htr, mrpPathsOf]

lemma mrpPathsOf_validateComponentsGo (o : ValidationOptions) :
    ∀ (comps : List JsVal) (i : Nat) (st : MessageValidator.CompState),
      mrpPathsOf (PropValidator.validateComponentsGo o comps i st).errors
        = mrpPathsOf st.errors ++ ((comps.enumFrom i).map specMissingRequired).flatten := by
  intro comps
  induction comps with
  | nil => intro i st; simp [PropValidator.validateComponentsGo, List.enumFrom]
  | cons c rest ih =>
    intro i st
    simp only [PropValidator.validateComponentsGo]
    rw [ih, mrpPathsOf_compStep, List.enumFrom_cons]
    simp [List.append_assoc]

/-- Claim C1: in every `updateComponents` message whose components field is
an array, the `MISSING_REQUIRED_PROPERTY` errors produced by the
property-checking validator are, in order, exactly one per required field
(per the spec 4.2 table) that is `undefined`, for every component, at
`updateComponents.components[i].<field>` — no short-circuiting — and the
single component `{id:"b", component:"Button"}` yields exactly two such
errors, naming `child` and `action`. -/
theorem claim_C1_missing_required_properties :
    (∀ (sid : JsVal) (comps : List JsVal) (options : ValidationOptions),
      ∃ r, PropValidator.validateMessage
          (.obj [("updateComponents",
            .obj [("surfaceId", sid), ("components", .arr comps)])]) options = .ok r ∧
        mrpPathsOf r.errors = ((comps.enum.map specMissingRequired)).flatten) ∧
    (∃ r, PropValidator.validateMessage
        (.obj [("updateComponents", .obj [("surfaceId", .str "s"),
          ("components", .arr [.obj [("id", .str "b"), ("component", .str "Button")]])])])
        {} = .ok r ∧
      r.errors = [⟨"MISSING_REQUIRED_PROPERTY", "Button component requires \"child\" property",
          some "updateComponents.components[0].child"⟩,
        ⟨"MISSING_REQUIRED_PROPERTY", "Button component requires \"action\" property",
          some "updateComponents.components[0].action"⟩] ∧
      r.valid = false) := by
  constructor
  · intro sid comps options
    have h1 : jsIn "createSurface"
        (.obj [("updateComponents",
          .obj [("surfaceId", sid), ("components", .arr comps)])]) = .ok false := rfl
    have h2 : jsIn "updateComponents"
        (.obj [("updateComponents",
          .obj [("surfaceId", sid), ("components", .arr comps)])]) = .ok true := rfl
    have h3 : jsGet
        (.obj [("updateComponents",
          .obj [("surfaceId", sid), ("components", .arr comps)])]) "updateComponents"
        = .ok (.obj [("surfaceId", sid), ("components", .arr comps)]) := rfl
    have h4 : jsGet (.obj [("surfaceId", sid), ("components", .arr comps)]) "surfaceId"
        = .ok sid := rfl
    have h5 : jsGet (.obj [("surfaceId", sid), ("components", .arr comps)]) "components"
        = .ok (.arr comps) := rfl
    have ht : (!truthy (JsVal.arr comps) || !(JsVal.arr comps).isArr) = false := rfl
    unfold PropValidator.validateMessage
    simp only [h1, h2, h3, h4, h5, ok_bind, error_bind, pure_eq_ok, ht,
      Bool.false_eq_true, if_false, eq_self_iff_true, if_true, JsVal.elemsOf]
    rcases hv : PropValidator.validateComponents comps options with ⟨E, W⟩
    simp only [hv]
    refine ⟨_, rfl, ?_⟩
    rw [mrpPathsOf_append]
    have he1 : mrpPathsOf
        (if (!truthy sid) = true then
          [⟨"MISSING_SURFACE_ID", "updateComponents.surfaceId is required",
            some "updateComponents.surfaceId"⟩]
        else []) = [] := by
      split_ifs <;> simp [mrpPathsOf]
    have hgo0 : (PropValidator.validateComponents comps options).1
        = (PropValidator.validateComponentsGo options comps 0
            ⟨[], [], [], false⟩).errors := by
      simp [PropValidator.validateComponents]
    rw [hv] at hgo0
    have hgo : E = (PropValidator.validateComponentsGo options comps 0
        ⟨[], [], [], false⟩).errors := by simpa using hgo0
    have hE : mrpPathsOf E = ((comps.enumFrom 0).map specMissingRequired).flatten := by
      rw [hgo, mrpPathsOf_validateComponentsGo]
      simp [mrpPathsOf]
    rw [he1, hE]
    rfl
  · exact ⟨⟨false,
      [⟨"MISSING_REQUIRED_PROPERTY", "Button component requires \"child\" property",
          some "updateComponents.components[0].child"⟩,
       ⟨"MISSING_REQUIRED_PROPERTY", "Button component requires \"action\" property",
          some "updateComponents.components[0].action"⟩], []⟩, rfl, rfl, rfl⟩
